import Mathlib

/-!
Shallow embedding of the app-prototyping-kit CRUD core.

The mock resource client (`src/lib/api.ts`) keeps a module-level array
`mockItems : Item[]` and exposes `list` / `get` / `create` / `update` /
`delete`.  We model the store as an explicit `List Item` threaded through
each operation; the artificial `delay(ms)` calls only suspend and have no
observable effect on the store, so they are dropped.  `Math.random()`-based
id generation and `new Date().toISOString()` timestamps are nondeterministic
inputs, modelled as explicit parameters.
-/

/-- The `status: "active" | "inactive"` union type of `Item`. -/
inductive Status where
  | active : Status
  | inactive : Status
deriving DecidableEq, Repr

/-- The `Item` interface from `src/lib/api.ts`. -/
structure Item where
  id : String
  name : String
  description : String
  status : Status
  createdAt : String
deriving DecidableEq, Repr

/-- The `Omit<Item, "id" | "createdAt">` argument type of `create`. -/
structure CreateData where
  name : String
  description : String
  status : Status
deriving DecidableEq, Repr

/-- The `Partial<Item>` argument type of `update`.  Every field of `Item`
is optional, including `id` and `createdAt`; an absent field (`none`) is
left unchanged by the spread merge. -/
structure ItemPatch where
  id : Option String := none
  name : Option String := none
  description : Option String := none
  status : Option Status := none
  createdAt : Option String := none
deriving DecidableEq, Repr

/-- The spread merge `{ ...item, ...data }` with `data : Partial<Item>`:
fields present in `data` override those of `item`. -/
def mergeItem (item : Item) (data : ItemPatch) : Item :=
  { id := data.id.getD item.id
    name := data.name.getD item.name
    description := data.description.getD item.description
    status := data.status.getD item.status
    createdAt := data.createdAt.getD item.createdAt }

/-- The seeded initial `mockItems` array.  The two `new Date().toISOString()`
timestamps are nondeterministic, hence parameters. -/
def initialMockItems (t1 t2 : String) : List Item :=
  [ { id := "1", name := "First Item", description := "This is a sample item",
      status := Status.active, createdAt := t1 },
    { id := "2", name := "Second Item", description := "Another sample item",
      status := Status.inactive, createdAt := t2 } ]

/-- Embeds `api.items.list`: returns the current collection (`return mockItems`). -/
def api.items.list (s : List Item) : List Item := s

/-- Embeds `api.items.get`: `mockItems.find((item) => item.id === id)`, throwing
`Error("Item not found")` when `find` yields `undefined`. -/
def api.items.get (s : List Item) (id : String) : Except String Item :=
  match s.find? (fun item => item.id == id) with
  | some item => Except.ok item
  | none => Except.error "Item not found"

/-- Embeds `api.items.create`: builds `{ ...data, id, createdAt }` with a freshly
generated `id` (from `Math.random().toString(36).substring(7)`, modelled as
the parameter `newId`, with no uniqueness check in the source) and timestamp
`now`, reassigns `mockItems = [...mockItems, newItem]`, and returns the new
item.  Result is `(returned item, new store)`. -/
def api.items.create (s : List Item) (data : CreateData) (newId now : String) :
    Item × List Item :=
  let newItem : Item :=
    { id := newId, name := data.name, description := data.description,
      status := data.status, createdAt := now }
  (newItem, s ++ [newItem])

/-- Replacement at the first index satisfying `p`: the effect of
`mockItems[index] = merged` where `index = mockItems.findIndex(p)` and
`index ≠ -1`.  Elements before and after the first match are untouched. -/
def replaceFirstMatch (p : Item → Bool) (merged : Item) : List Item → List Item
  | [] => []
  | x :: xs => if p x then merged :: xs else x :: replaceFirstMatch p merged xs

/-- Embeds `api.items.update`: `findIndex((item) => item.id === id)`; on `-1`
throws `Error("Item not found")` (store untouched); otherwise overwrites the
record at that index with `{ ...mockItems[index], ...data }` and returns it.
The element at the first matching index is the result of `find?`, and the
in-place assignment is `replaceFirstMatch`.  Result is
`(thrown-or-returned value, new store)`. -/
def api.items.update (s : List Item) (id : String) (data : ItemPatch) :
    Except String Item × List Item :=
  match s.find? (fun item => item.id == id) with
  | none => (Except.error "Item not found", s)
  | some item =>
      let merged := mergeItem item data
      (Except.ok merged, replaceFirstMatch (fun it => it.id == id) merged s)

/-- Embeds `api.items.delete`: `mockItems = mockItems.filter((item) => item.id !== id)`.
Never throws. -/
def api.items.delete (s : List Item) (id : String) : List Item :=
  s.filter (fun item => item.id != id)

/-!
Query-cache layer (`src/hooks/useItems.ts`).

The hooks wrap the resource client in TanStack Query.  The relevant cache
keys are `ITEMS_QUERY_KEY = ["items"]` and, per record, `["items", id]`.
We model the cache as the stored value per key, with `none` meaning the
entry is absent or invalidated (stale), so the next read runs its `queryFn`
against the store.  `invalidateQueries({ queryKey })` marks every entry
whose key has the given key as a prefix as stale (the default prefix matching
of TanStack Query), so invalidating `["items"]` also invalidates every
`["items", id]` entry.
-/

/-- The query cache restricted to the keys this app uses: `listEntry` is
the cached value under `["items"]`, `itemEntry id` the one under
`["items", id]`; `none` means stale or never fetched. -/
structure QueryCache where
  listEntry : Option (List Item)
  itemEntry : String → Option Item

/-- Embeds `queryClient.invalidateQueries({ queryKey: ITEMS_QUERY_KEY })`: by
prefix matching this marks `["items"]` and every `["items", id]` stale. -/
def invalidateItemsKey (_c : QueryCache) : QueryCache :=
  { listEntry := none, itemEntry := fun _ => none }

/-- Embeds `queryClient.invalidateQueries({ queryKey: [...ITEMS_QUERY_KEY, id] })`:
marks the single per-record entry stale. -/
def invalidateItemKey (c : QueryCache) (id : String) : QueryCache :=
  { c with itemEntry := fun j => if j == id then none else c.itemEntry j }

/-- Embeds `useItems()`: a read under key `["items"]` with `queryFn: api.items.list`.
A fresh cached value is served as-is; a stale entry triggers a refetch from
the store and is cached.  Result is `(observed value, new cache)`. -/
def useItems.read (s : List Item) (c : QueryCache) : List Item × QueryCache :=
  match c.listEntry with
  | some cached => (cached, c)
  | none =>
      let fetched := api.items.list s
      (fetched, { c with listEntry := some fetched })

/-- Embeds `useItem(id)`: a read under key `["items", id]` with
`queryFn: () => api.items.get(id)`.  On a fetch error the cache entry is
left unpopulated and the error status is surfaced. -/
def useItem.read (s : List Item) (c : QueryCache) (id : String) :
    Except String Item × QueryCache :=
  match c.itemEntry id with
  | some cached => (Except.ok cached, c)
  | none =>
      match api.items.get s id with
      | Except.ok item =>
          (Except.ok item,
           { c with itemEntry := fun j => if j == id then some item else c.itemEntry j })
      | Except.error e => (Except.error e, c)

/-- Embeds `useCreateItem().mutate`: runs `api.items.create`; `onSuccess` (always
reached, since `create` cannot fail) invalidates `["items"]`.  Result is
`(returned item, new store, new cache)`. -/
def useCreateItem.mutate (s : List Item) (c : QueryCache) (data : CreateData)
    (newId now : String) : Item × List Item × QueryCache :=
  let r := api.items.create s data newId now
  (r.1, r.2, invalidateItemsKey c)

/-- Embeds `useUpdateItem().mutate`: runs `api.items.update id data`; `onSuccess`
invalidates `["items"]` and `["items", id]`; on failure `onSuccess` is not
run, the cache is untouched and the error is surfaced as the mutation"s
error result. -/
def useUpdateItem.mutate (s : List Item) (c : QueryCache) (id : String)
    (data : ItemPatch) : Except String Item × List Item × QueryCache :=
  match api.items.update s id data with
  | (Except.ok item, s2) =>
      (Except.ok item, s2, invalidateItemKey (invalidateItemsKey c) id)
  | (Except.error e, s2) => (Except.error e, s2, c)

/-- Embeds `useDeleteItem().mutate`: runs `api.items.delete`; `onSuccess` (always
reached) invalidates `["items"]`. -/
def useDeleteItem.mutate (s : List Item) (c : QueryCache) (id : String) :
    List Item × QueryCache :=
  (api.items.delete s id, invalidateItemsKey c)

/-!
Creation form (`src/pages/CreateItemPage.tsx`).

`createItemSchema` is a Zod object schema; `useForm` is configured with
`zodResolver(createItemSchema)`, and `handleSubmit(onSubmit)` runs
validation first and calls `onSubmit` (which performs the client `create`
call) only when every field validates.  The `status` select may be unset
(`required_error`), so the raw form value is an `Option Status`.
-/

/-- Raw values of the creation form before validation. -/
structure CreateItemForm where
  name : String
  description : String
  status : Option Status
deriving Repr

/-- Field-level error messages, as surfaced next to each field; `none`
means the field validated. -/
structure CreateItemFieldErrors where
  name : Option String
  description : Option String
  status : Option String
deriving DecidableEq, Repr

/-- Embeds `z.string().min(3, ...).max(50, ...)` on `name`: the first failing
message of the first failing check. -/
def nameError (s : String) : Option String :=
  if s.length < 3 then some "Name must be at least 3 characters"
  else if 50 < s.length then some "Name must be less than 50 characters"
  else none

/-- Embeds `z.string().min(10, ...).max(200, ...)` on `description`. -/
def descriptionError (s : String) : Option String :=
  if s.length < 10 then some "Description must be at least 10 characters"
  else if 200 < s.length then some "Description must be less than 200 characters"
  else none

/-- Embeds `createItemSchema.parse`: succeeds with the typed data exactly when no
field has an error, otherwise reports the per-field errors. -/
def createItemSchema.validate (f : CreateItemForm) :
    Except CreateItemFieldErrors CreateData :=
  let errs : CreateItemFieldErrors :=
    { name := nameError f.name
      description := descriptionError f.description
      status := if f.status.isNone then some "Please select a status" else none }
  match f.status with
  | some st =>
      if errs.name.isNone && errs.description.isNone then
        Except.ok { name := f.name, description := f.description, status := st }
      else Except.error errs
  | none => Except.error errs

/-- Embeds `handleSubmit(onSubmit)` on the create page: validation failure keeps
the page in the editing state with the field errors shown and performs no
client call (the store is returned unchanged); on success `onSubmit` calls
`createItem.mutateAsync(data)`, which appends the new record. -/
def CreateItemPage.submit (s : List Item) (f : CreateItemForm)
    (newId now : String) : List Item × Except CreateItemFieldErrors Item :=
  match createItemSchema.validate f with
  | Except.error errs => (s, Except.error errs)
  | Except.ok data =>
      let r := api.items.create s data newId now
      (r.2, Except.ok r.1)

/-!
UI state store (`src/stores/uiStore.ts`): a Zustand store whose state is
the single flag `sidebarOpen`; `toggleSidebar` and `setSidebarOpen` are its
only mutators.
-/

/-- The state held by `useUIStore` (its data part; the two setters are
modelled as the functions below). -/
structure UIState where
  sidebarOpen : Bool
deriving DecidableEq, Repr

/-- The store"s initial state: `sidebarOpen: true`. -/
def uiStoreInitial : UIState := { sidebarOpen := true }

/-- Embeds `toggleSidebar: () => set((state) => ({ sidebarOpen: !state.sidebarOpen }))`. -/
def toggleSidebar (st : UIState) : UIState :=
  { st with sidebarOpen := !st.sidebarOpen }

/-- Embeds `setSidebarOpen: (open) => set({ sidebarOpen: open })`. -/
def setSidebarOpen (st : UIState) (b : Bool) : UIState :=
  { st with sidebarOpen := b }

/-! Helper lemmas. -/

/-- After replacing the first `p`-match of a list that has one with an item
that itself satisfies `p`, the first `p`-match is the replacement. -/
theorem find?_replaceFirstMatch (p : Item → Bool) (m : Item) (s : List Item)
    (orig : Item) (h : s.find? p = some orig) (hm : p m = true) :
    (replaceFirstMatch p m s).find? p = some m := by
  induction s with
  | nil => simp at h
  | cons x xs ih =>
      by_cases hx : p x = true
      · simp [replaceFirstMatch, hx, List.find?_cons_of_pos _ hm]
      · rw [List.find?_cons_of_neg _ hx] at h
        simp only [replaceFirstMatch, if_neg hx]
        rw [List.find?_cons_of_neg _ hx]
        exact ih h

/-! Claim theorems. -/

/-- C5: `delete` always succeeds: no record with the deleted identifier
remains, records with other identifiers are kept, deleting twice equals
deleting once (idempotence), `get` of the deleted identifier afterwards
rejects with "Item not found", and deleting an absent identifier leaves
the collection exactly unchanged. -/
theorem delete_total_idempotent (s : List Item) (id : String) :
    (∀ r ∈ api.items.delete s id, r.id ≠ id)
    ∧ (∀ r ∈ s, r.id ≠ id → r ∈ api.items.delete s id)
    ∧ api.items.delete (api.items.delete s id) id = api.items.delete s id
    ∧ api.items.get (api.items.delete s id) id = Except.error "Item not found"
    ∧ ((∀ r ∈ s, r.id ≠ id) → api.items.delete s id = s) := by
  refine ⟨?_, ?_, ?_, ?_, ?_⟩
  · intro r hr
    have := (List.mem_filter.mp hr).2
    simpa using this
  · intro r hr hne
    exact List.mem_filter.mpr ⟨hr, by simpa using hne⟩
  · apply List.filter_eq_self.mpr
    intro r hr
    exact (List.mem_filter.mp hr).2
  · have hnone : (api.items.delete s id).find? (fun item => item.id == id) = none := by
      apply List.find?_eq_none.mpr
      intro r hr
      have := (List.mem_filter.mp hr).2
      simpa using this
    simp [api.items.get, hnone]
  · intro h
    apply List.filter_eq_self.mpr
    intro r hr
    simpa using h r hr

/-- Witness for C5 at the seeded store: `delete("1")` then `get("1")`
rejects, and deleting an absent identifier is a no-op. -/
theorem delete_total_idempotent_witness :
    api.items.get (api.items.delete (initialMockItems "t1" "t2") "1") "1"
        = Except.error "Item not found"
    ∧ api.items.delete (initialMockItems "t1" "t2") "absent"
        = initialMockItems "t1" "t2" :=
  ⟨(delete_total_idempotent (initialMockItems "t1" "t2") "1").2.2.2.1,
   (delete_total_idempotent (initialMockItems "t1" "t2") "absent").2.2.2.2
     (by decide)⟩

/-- C3: `get(id)` succeeds exactly when some record has identifier `id`,
in which case it returns a record of the collection with that identifier;
when no record matches it rejects with "Item not found". -/
theorem get_ok_iff_present (s : List Item) (id : String) :
    ((∃ r ∈ s, r.id = id)
       ↔ ∃ r, api.items.get s id = Except.ok r ∧ r ∈ s ∧ r.id = id)
    ∧ ((∀ r ∈ s, r.id ≠ id) →
        api.items.get s id = Except.error "Item not found") := by
  unfold api.items.get
  cases h : s.find? (fun item => item.id == id) with
  | some item =>
      refine ⟨⟨fun _ => ?_, fun ⟨r, _, hr, hid⟩ => ⟨r, hr, hid⟩⟩, fun hall => ?_⟩
      · exact ⟨item, rfl, List.mem_of_find?_eq_some h,
          by simpa using List.find?_some h⟩
      · exact absurd (by simpa using List.find?_some h)
          (hall item (List.mem_of_find?_eq_some h))
  | none =>
      refine ⟨⟨fun ⟨r, hr, hid⟩ => ?_, fun ⟨r, hr, _⟩ => by simp at hr⟩,
        fun _ => rfl⟩
      exact absurd hid (by simpa using List.find?_eq_none.mp h r hr)

/-- Witness for C3 at the seeded store: `get("1")` returns the matching
record, `get("z")` rejects with "Item not found". -/
theorem get_ok_iff_present_witness :
    (∃ r, api.items.get (initialMockItems "t1" "t2") "1" = Except.ok r
        ∧ r ∈ initialMockItems "t1" "t2" ∧ r.id = "1")
    ∧ api.items.get (initialMockItems "t1" "t2") "z"
        = Except.error "Item not found" :=
  ⟨(get_ok_iff_present (initialMockItems "t1" "t2") "1").1.mp
      ⟨{ id := "1", name := "First Item", description := "This is a sample item",
         status := Status.active, createdAt := "t1" }, by decide, rfl⟩,
   (get_ok_iff_present (initialMockItems "t1" "t2") "z").2 (by decide)⟩

/-- C4: when no record has identifier `id`, `update(id, partial)` rejects
with "Item not found" and the collection is exactly unchanged, so a
subsequent `list` returns the pre-call collection. -/
theorem update_absent_id_rejects_unchanged (s : List Item) (id : String)
    (p : ItemPatch) (h : ∀ r ∈ s, r.id ≠ id) :
    api.items.update s id p = (Except.error "Item not found", s)
    ∧ api.items.list (api.items.update s id p).2 = api.items.list s := by
  have hf : s.find? (fun item => item.id == id) = none :=
    List.find?_eq_none.mpr (fun r hr => by simpa using h r hr)
  refine ⟨?_, ?_⟩ <;> simp [api.items.update, hf, api.items.list]

/-- Witness for C4: `update("nonexistent-id", {name: "X"})` on the seeded
store rejects and leaves the store unchanged. -/
theorem update_absent_id_rejects_unchanged_witness :
    api.items.update (initialMockItems "t1" "t2") "nonexistent-id"
        { name := some "X" }
      = (Except.error "Item not found", initialMockItems "t1" "t2") :=
  (update_absent_id_rejects_unchanged (initialMockItems "t1" "t2")
    "nonexistent-id" { name := some "X" } (by decide)).1

/-- Counterexample to C1 as stated: the new identifier comes from
`Math.random().toString(36).substring(7)` with no uniqueness check against
the collection, so the generated identifier (a nondeterministic input of
`create`) can equal an identifier already present — here `"1"`. -/
theorem create_generated_id_can_collide :
    (api.items.create (initialMockItems "t1" "t2")
        { name := "Widget", description := "d", status := Status.active }
        "1" "t3").1.id
      ∈ (initialMockItems "t1" "t2").map Item.id := by decide

/-- C1 (amended): in every case — whether or not the generated identifier
collides — the new collection is the prior sequence with the new record
appended, so a subsequent `list` has length = previous length + 1 and
contains the returned record, whose fields come from the input together
with the generated identifier and timestamp; and provided the randomly
generated identifier does not already occur in the collection, the returned
identifier is distinct from every identifier currently in the
collection. -/
theorem create_appends_fresh_record (s : List Item) (d : CreateData)
    (newId now : String) :
    (api.items.create s d newId now).2
        = s ++ [(api.items.create s d newId now).1]
    ∧ (api.items.list (api.items.create s d newId now).2).length
        = (api.items.list s).length + 1
    ∧ (api.items.create s d newId now).1
        ∈ api.items.list (api.items.create s d newId now).2
    ∧ (api.items.create s d newId now).1.id = newId
    ∧ (api.items.create s d newId now).1.createdAt = now
    ∧ (api.items.create s d newId now).1.name = d.name
    ∧ (api.items.create s d newId now).1.description = d.description
    ∧ (api.items.create s d newId now).1.status = d.status
    ∧ ((∀ r ∈ s, r.id ≠ newId) →
        ∀ r ∈ s, (api.items.create s d newId now).1.id ≠ r.id) := by
  refine ⟨rfl, by simp [api.items.create, api.items.list],
    by simp [api.items.create, api.items.list], rfl, rfl, rfl, rfl, rfl, ?_⟩
  intro h r hr he
  exact h r hr he.symm

/-- Witness for C1 (amended) at the seeded store with the Widget input:
`list` grows by one, the returned record carries the input name, and since
"w1" is fresh the returned identifier differs from the existing "1". -/
theorem create_appends_fresh_record_witness :
    (api.items.list (api.items.create (initialMockItems "t1" "t2")
        { name := "Widget", description := "d", status := Status.active }
        "w1" "t3").2).length
      = (api.items.list (initialMockItems "t1" "t2")).length + 1
    ∧ (api.items.create (initialMockItems "t1" "t2")
        { name := "Widget", description := "d", status := Status.active }
        "w1" "t3").1.name = "Widget"
    ∧ (api.items.create (initialMockItems "t1" "t2")
        { name := "Widget", description := "d", status := Status.active }
        "w1" "t3").1.id ≠ "1" :=
  ⟨(create_appends_fresh_record (initialMockItems "t1" "t2")
      { name := "Widget", description := "d", status := Status.active }
      "w1" "t3").2.1,
   (create_appends_fresh_record (initialMockItems "t1" "t2")
      { name := "Widget", description := "d", status := Status.active }
      "w1" "t3").2.2.2.2.2.1,
   (create_appends_fresh_record (initialMockItems "t1" "t2")
      { name := "Widget", description := "d", status := Status.active }
      "w1" "t3").2.2.2.2.2.2.2.2 (by decide)
     { id := "1", name := "First Item", description := "This is a sample item",
       status := Status.active, createdAt := "t1" } (by decide)⟩

/-- C9: the partial argument of `update` may contain `id`; the spread merge
overwrites the stored identifier with it, and on the seeded store (whose
identifiers are distinct) updating record "1" with `{id: "2"}` yields a
store whose identifier list is `["2", "2"]` — uniqueness is not preserved. -/
theorem update_id_overwrite_breaks_uniqueness :
    (∀ (item : Item) (b : String), (mergeItem item { id := some b }).id = b)
    ∧ ((initialMockItems "t1" "t2").map Item.id).Nodup
    ∧ (api.items.update (initialMockItems "t1" "t2") "1"
        { id := some "2" }).2.map Item.id = ["2", "2"]
    ∧ ¬ ((api.items.update (initialMockItems "t1" "t2") "1"
          { id := some "2" }).2.map Item.id).Nodup :=
  ⟨fun _ _ => rfl, by decide, by decide, by decide⟩

/-- Counterexample to C2 as stated: with the partial `{id: "2"}` the update
of record "1" succeeds, yet `get("1")` afterwards rejects — the conclusion
of C2 fails when the partial names the `id` field with a different value. -/
theorem update_id_field_defeats_get :
    (api.items.update (initialMockItems "t1" "t2") "1" { id := some "2" }).1
      = Except.ok { id := "2", name := "First Item",
                    description := "This is a sample item",
                    status := Status.active, createdAt := "t1" }
    ∧ api.items.get
        (api.items.update (initialMockItems "t1" "t2") "1" { id := some "2" }).2 "1"
      = Except.error "Item not found" :=
  ⟨rfl, rfl⟩

/-- C2 (amended): provided the partial does not set `id` to a different
value (it is absent or equal to `id`), after `update(id, partial)` succeeds
`get(id)` returns the merged record: every field named in the partial
carries the given value and every unnamed field keeps its pre-update
value. -/
theorem update_merges_named_fields_preserves_rest (s : List Item)
    (id : String) (p : ItemPatch) (r : Item) (s2 : List Item)
    (h : api.items.update s id p = (Except.ok r, s2))
    (hid : p.id = none ∨ p.id = some id) :
    ∃ orig, api.items.get s id = Except.ok orig
      ∧ r = mergeItem orig p
      ∧ api.items.get s2 id = Except.ok r
      ∧ (∀ v, p.name = some v → r.name = v)
      ∧ (p.name = none → r.name = orig.name)
      ∧ (∀ v, p.description = some v → r.description = v)
      ∧ (p.description = none → r.description = orig.description)
      ∧ (∀ v, p.status = some v → r.status = v)
      ∧ (p.status = none → r.status = orig.status)
      ∧ (∀ v, p.createdAt = some v → r.createdAt = v)
      ∧ (p.createdAt = none → r.createdAt = orig.createdAt) := by
  unfold api.items.update at h
  cases hf : s.find? (fun item => item.id == id) with
  | none => rw [hf] at h; simp at h
  | some orig =>
      rw [hf] at h
      simp only [Prod.mk.injEq, Except.ok.injEq] at h
      obtain ⟨h1, h2⟩ := h
      subst h2
      subst h1
      have horig : (orig.id == id) = true := by simpa using List.find?_some hf
      have hm : ((mergeItem orig p).id == id) = true := by
        rcases hid with hid | hid
        · simpa [mergeItem, hid] using horig
        · simp [mergeItem, hid]
      refine ⟨orig, by simp [api.items.get, hf], rfl,
        by simp [api.items.get, find?_replaceFirstMatch _ _ _ _ hf hm],
        ?_, ?_, ?_, ?_, ?_, ?_, ?_, ?_⟩
      all_goals first
        | (intro v hv; simp [mergeItem, hv])
        | (intro hv; simp [mergeItem, hv])

/-- Witness for C2 (amended): updating record "1" of the seeded store with
`{name: "X"}` makes a subsequent `get("1")` return the record with the new
name and all other fields unchanged. -/
theorem update_merges_named_fields_witness :
    api.items.get
        (api.items.update (initialMockItems "t1" "t2") "1"
          { name := some "X" }).2 "1"
      = Except.ok { id := "1", name := "X",
                    description := "This is a sample item",
                    status := Status.active, createdAt := "t1" } := by
  obtain ⟨orig, -, -, h3, -⟩ :=
    update_merges_named_fields_preserves_rest (initialMockItems "t1" "t2") "1"
      { name := some "X" }
      { id := "1", name := "X", description := "This is a sample item",
        status := Status.active, createdAt := "t1" }
      (api.items.update (initialMockItems "t1" "t2") "1" { name := some "X" }).2
      rfl (Or.inl rfl)
  exact h3

/-- When no record matches the identifier, `update` rejects with
"Item not found" and returns the store unchanged. -/
theorem update_eq_of_absent (s : List Item) (id : String) (p : ItemPatch)
    (h : ∀ r ∈ s, r.id ≠ id) :
    api.items.update s id p = (Except.error "Item not found", s) := by
  have hf : s.find? (fun item => item.id == id) = none :=
    List.find?_eq_none.mpr (fun r hr => by simpa using h r hr)
  simp [api.items.update, hf]

/-- C6: after a successful mutation the related cache keys are stale
(`["items"]` for create and delete; both `["items"]` and `["items", id]`
for update, the invalidation being applied to the post-mutation cache, i.e.
only once the mutating function has succeeded), so a subsequent read
through the cache refetches and returns exactly what the resource client
yields on the post-mutation store — no stale value survives. -/
theorem mutation_invalidates_then_reads_fresh
    (s : List Item) (c : QueryCache) (d : CreateData) (newId now id : String)
    (p : ItemPatch) :
    ((useCreateItem.mutate s c d newId now).2.2.listEntry = none
      ∧ (useItems.read (useCreateItem.mutate s c d newId now).2.1
           (useCreateItem.mutate s c d newId now).2.2).1
          = api.items.list (useCreateItem.mutate s c d newId now).2.1
      ∧ (useCreateItem.mutate s c d newId now).1
          ∈ (useItems.read (useCreateItem.mutate s c d newId now).2.1
               (useCreateItem.mutate s c d newId now).2.2).1)
    ∧ (∀ (item : Item) (s2 : List Item) (c2 : QueryCache),
        useUpdateItem.mutate s c id p = (Except.ok item, s2, c2) →
        c2.listEntry = none
        ∧ c2.itemEntry id = none
        ∧ (useItems.read s2 c2).1 = api.items.list s2
        ∧ (useItem.read s2 c2 id).1 = api.items.get s2 id)
    ∧ ((useDeleteItem.mutate s c id).2.listEntry = none
      ∧ (useItems.read (useDeleteItem.mutate s c id).1
           (useDeleteItem.mutate s c id).2).1
          = api.items.list (useDeleteItem.mutate s c id).1) := by
  refine ⟨⟨rfl, rfl, ?_⟩, ?_, rfl, rfl⟩
  · simp [useCreateItem.mutate, api.items.create, useItems.read,
      invalidateItemsKey, api.items.list]
  · intro item s2 c2 hupd
    unfold useUpdateItem.mutate at hupd
    cases hu : api.items.update s id p with
    | mk e st =>
        rw [hu] at hupd
        cases e with
        | error msg => simp at hupd
        | ok it =>
            simp only [Prod.mk.injEq, Except.ok.injEq] at hupd
            obtain ⟨hit, hst, hc⟩ := hupd
            subst hst
            subst hc
            have hnone :
                (invalidateItemKey (invalidateItemsKey c) id).itemEntry id
                  = none := by
              simp [invalidateItemKey, invalidateItemsKey]
            refine ⟨rfl, hnone, rfl, ?_⟩
            cases hg : api.items.get st id <;>
              simp [useItem.read, hnone, hg]

/-- Witness for C6: on the seeded store, a create and a delete leave the
collection entry stale, and a successful update of record "1" leaves both
related cache entries stale. -/
theorem mutation_invalidates_then_reads_fresh_witness :
    (useUpdateItem.mutate (initialMockItems "t1" "t2")
        { listEntry := some [], itemEntry := fun _ => none } "1"
        { name := some "X" }).2.2.itemEntry "1" = none
    ∧ (useUpdateItem.mutate (initialMockItems "t1" "t2")
        { listEntry := some [], itemEntry := fun _ => none } "1"
        { name := some "X" }).2.2.listEntry = none
    ∧ (useCreateItem.mutate (initialMockItems "t1" "t2")
        { listEntry := some [], itemEntry := fun _ => none }
        { name := "Widget", description := "d", status := Status.active }
        "w1" "t3").2.2.listEntry = none
    ∧ (useDeleteItem.mutate (initialMockItems "t1" "t2")
        { listEntry := some [], itemEntry := fun _ => none }
        "1").2.listEntry = none := by
  have h := mutation_invalidates_then_reads_fresh (initialMockItems "t1" "t2")
    { listEntry := some [], itemEntry := fun _ => none }
    { name := "Widget", description := "d", status := Status.active }
    "w1" "t3" "1" { name := some "X" }
  have hu := h.2.1
    { id := "1", name := "X", description := "This is a sample item",
      status := Status.active, createdAt := "t1" }
    (useUpdateItem.mutate (initialMockItems "t1" "t2")
        { listEntry := some [], itemEntry := fun _ => none } "1"
        { name := some "X" }).2.1
    (useUpdateItem.mutate (initialMockItems "t1" "t2")
        { listEntry := some [], itemEntry := fun _ => none } "1"
        { name := some "X" }).2.2
    rfl
  exact ⟨hu.2.1, hu.1, h.1.1, h.2.2.1⟩

/-- C7: when the underlying mutating function fails (an update of an absent
identifier, the only failing mutation in this client), the hook performs no
invalidation — the cache comes back untouched — and the error is surfaced
as the mutation result rather than swallowed. -/
theorem failed_mutation_leaves_cache_and_surfaces_error (s : List Item)
    (c : QueryCache) (id : String) (p : ItemPatch)
    (h : ∀ r ∈ s, r.id ≠ id) :
    useUpdateItem.mutate s c id p = (Except.error "Item not found", s, c) := by
  simp [useUpdateItem.mutate, update_eq_of_absent s id p h]

/-- Witness for C7: updating "nonexistent-id" through the hook surfaces the
error and returns the very same cache. -/
theorem failed_mutation_leaves_cache_witness :
    useUpdateItem.mutate (initialMockItems "t1" "t2")
        { listEntry := some [], itemEntry := fun _ => none }
        "nonexistent-id" { name := some "X" }
      = (Except.error "Item not found", initialMockItems "t1" "t2",
         { listEntry := some [], itemEntry := fun _ => none }) :=
  failed_mutation_leaves_cache_and_surfaces_error _ _ _ _ (by decide)

/-- C8: a creation-form submission whose name has fewer than 3 characters
is rejected by the schema with the field-level message on `name`; the
resource client is never called and the collection is returned exactly
unchanged. -/
theorem short_name_rejected_before_create (s : List Item)
    (f : CreateItemForm) (newId now : String) (h : f.name.length < 3) :
    (CreateItemPage.submit s f newId now).1 = s
    ∧ ∃ errs, (CreateItemPage.submit s f newId now).2 = Except.error errs
        ∧ errs.name = some "Name must be at least 3 characters" := by
  have hname : nameError f.name = some "Name must be at least 3 characters" := by
    simp [nameError, h]
  cases hst : f.status with
  | none =>
      refine ⟨?_, ⟨{ name := some "Name must be at least 3 characters",
                     description := descriptionError f.description,
                     status := some "Please select a status" }, ?_, rfl⟩⟩
      · simp [CreateItemPage.submit, createItemSchema.validate, hst]
      · simp [CreateItemPage.submit, createItemSchema.validate, hst, hname]
  | some st =>
      refine ⟨?_, ⟨{ name := some "Name must be at least 3 characters",
                     description := descriptionError f.description,
                     status := none }, ?_, rfl⟩⟩
      · simp [CreateItemPage.submit, createItemSchema.validate, hst, hname]
      · simp [CreateItemPage.submit, createItemSchema.validate, hst, hname]

/-- Witness for C8: a two-character name is rejected with the message and
the seeded store is unchanged. -/
theorem short_name_rejected_witness :
    (CreateItemPage.submit (initialMockItems "t1" "t2")
        { name := "ab", description := "a long enough description",
          status := some Status.active } "w1" "t3").1
      = initialMockItems "t1" "t2"
    ∧ ∃ errs, (CreateItemPage.submit (initialMockItems "t1" "t2")
        { name := "ab", description := "a long enough description",
          status := some Status.active } "w1" "t3").2 = Except.error errs
        ∧ errs.name = some "Name must be at least 3 characters" :=
  short_name_rejected_before_create _ _ _ _ (by decide)

/-- C10: in the UI store, `toggleSidebar` is an involution, `setSidebarOpen`
sets the flag to its argument and changes nothing else of the state (the
state is exactly the flag), and the initial `sidebarOpen` is `true`. -/
theorem uiStore_sidebar_properties (st : UIState) (b : Bool) :
    toggleSidebar (toggleSidebar st) = st
    ∧ (setSidebarOpen st b).sidebarOpen = b
    ∧ setSidebarOpen st b = { sidebarOpen := b }
    ∧ uiStoreInitial.sidebarOpen = true := by
  refine ⟨?_, rfl, rfl, rfl⟩
  cases st
  simp [toggleSidebar]
